import Mathlib

/-!
Verification of the RTanks ratings scraper (src/scraper.py, src/unnamed/part_000).

The HTML layer (BeautifulSoup) is external; a parsed document is embedded as a
`Doc`: the structured view the scraper queries (tables of rows of cells, the
online-indicator span, the results of the rank/experience text searches, the
equipment images).  All string primitives used by the Python code
(str.lower, str.strip, the in operator, str.isdigit, int(), float()
acceptance, the re character classes) are modelled as executable functions
over `List Char`.  The models cover ASCII plus the Cyrillic alphabet (the
site's language); Python's full Unicode tables are abstracted to these
ranges, and int()/float() underscore separators and inf/nan literals are
omitted (the scraper's call sites are digit-guarded or digit-filtered).
-/

/-- Model of Python str.lower for ASCII letters and Cyrillic А-Я and Ё. -/
def pyLowerChar (c : Char) : Char :=
  if 65 ≤ c.toNat && c.toNat ≤ 90 then Char.ofNat (c.toNat + 32)
  else if 1040 ≤ c.toNat && c.toNat ≤ 1071 then Char.ofNat (c.toNat + 32)
  else if c.toNat == 1025 then Char.ofNat 1105
  else c

/-- Model of Python str.lower. -/
def pyLower (s : String) : String := String.mk (s.data.map pyLowerChar)

/-- Whitespace as stripped by Python str.strip and matched by re \s:
space, tab, newline, carriage return, vertical tab, form feed, NEL, NBSP. -/
def isPySpace (c : Char) : Bool :=
  c == ' ' || c == '\t' || c == '\n' || c == '\r' ||
  c.toNat == 11 || c.toNat == 12 || c.toNat == 133 || c.toNat == 160

/-- Word characters as matched by Python re \w: ASCII alphanumerics,
underscore; every non-ASCII codepoint is treated as a word character,
which covers the Cyrillic letters appearing on the site. -/
def isWordChar (c : Char) : Bool := c.isAlphanum || c == '_' || 128 ≤ c.toNat

/-- Does the second list start with the first? -/
def startsWithL : List Char → List Char → Bool
  | [], _ => true
  | _ :: _, [] => false
  | a :: as, b :: bs => a == b && startsWithL as bs

/-- Does the needle occur as a contiguous sublist of the haystack? -/
def occursL (needle : List Char) : List Char → Bool
  | [] => startsWithL needle []
  | c :: rest => startsWithL needle (c :: rest) || occursL needle rest

/-- Model of the Python substring test: needle in hay. -/
def pyContains (hay needle : String) : Bool := occursL needle.data hay.data

/-- Model of Python str.strip (no argument): drop leading and trailing
whitespace. -/
def pyStripL (l : List Char) : List Char :=
  ((l.dropWhile isPySpace).reverse.dropWhile isPySpace).reverse

/-- Model of Python str.strip on strings. -/
def pyStrip (s : String) : String := String.mk (pyStripL s.data)

/-- Model of Python str.isdigit: non-empty and all decimal digits. -/
def pyIsdigit (s : String) : Bool := !s.data.isEmpty && s.data.all Char.isDigit

/-- Decimal value of a digit string (the value Python int() returns on a
string of digits). -/
def digitsToNat (l : List Char) : Nat := l.foldl (fun a c => 10 * a + (c.toNat - 48)) 0

/-- Model of Python int(s): strip whitespace, optional sign, then a
non-empty run of decimal digits; any other input raises ValueError,
modelled as none. -/
def pyIntVal (l : List Char) : Option Int :=
  match pyStripL l with
  | [] => none
  | c :: rest =>
    if c == '-' then
      if !rest.isEmpty && rest.all Char.isDigit then some (-(digitsToNat rest : Int)) else none
    else if c == '+' then
      if !rest.isEmpty && rest.all Char.isDigit then some ((digitsToNat rest : Int)) else none
    else
      if (c :: rest).all Char.isDigit then some ((digitsToNat (c :: rest) : Int)) else none

/-- Take and drop the leading run of digits. -/
def digitsSpan (l : List Char) : List Char × List Char :=
  (l.takeWhile Char.isDigit, l.dropWhile Char.isDigit)

/-- Acceptance of the exponent suffix of a Python float literal: empty, or
e/E with optional sign and at least one digit. -/
def expPartOk : List Char → Bool
  | [] => true
  | c :: rest =>
    if c == 'e' || c == 'E' then
      let rest2 := match rest with
        | s :: r => if s == '+' || s == '-' then r else s :: r
        | [] => []
      !rest2.isEmpty && rest2.all Char.isDigit
    else false

/-- Acceptance of a Python float mantissa (after the optional sign):
digits, optionally a dot with more digits, at least one digit overall,
then an optional exponent. -/
def mantissaOk (l : List Char) : Bool :=
  let ip := (digitsSpan l).1
  let r1 := (digitsSpan l).2
  let fp := match r1 with
    | '.' :: r => (digitsSpan r).1
    | _ => []
  let r2 := match r1 with
    | '.' :: r => (digitsSpan r).2
    | _ => r1
  (!ip.isEmpty || !fp.isEmpty) && expPartOk r2

/-- Model of the acceptance of Python float(s): strip, optional sign, then
a numeric mantissa with optional exponent (inf/nan literals omitted). -/
def pyFloatOk (s : String) : Bool :=
  match pyStripL s.data with
  | [] => false
  | c :: rest => if c == '+' || c == '-' then mantissaOk rest else mantissaOk (c :: rest)

/-- A table cell as the scraper queries it: its stripped text
(cell.get_text(strip=True)), the stripped text of the first contained
hyperlink if any (cell.find with tag a), and the alt attribute (defaulted
to the empty string) of the first contained image if any. -/
structure Cell where
  text : String
  link : Option String
  imgAlt : Option String
deriving DecidableEq

/-- A table row: its td cells (row.find_all with tag td), in order. -/
structure Row where
  cells : List Cell
deriving DecidableEq

/-- A table: its tr rows, in order. -/
structure Table where
  rows : List Row
deriving DecidableEq

/-- The structured view of a parsed page, holding exactly the query results
the scraper reads from the soup:
tables in document order; the style attribute of the span with class
user_online (outer none: no such span; inner none: span without a style
attribute); the stripped text of the first div whose string matches the
military-rank pattern; the text nodes matching the experience fraction
pattern, in order; and the (alt, src) attribute pairs (each defaulted to
the empty string) of the images inside equipment/gear classed divs. -/
structure Doc where
  tables : List Table
  userOnlineStyle : Option (Option String)
  rankDivText : Option String
  expMatchTexts : List String
  equipImgs : List (String × String)
deriving DecidableEq

/-- Input to a parse call: the raw html string together with the outcome of
BeautifulSoup(html): a Doc, or an error for markup the soup constructor
rejects. -/
structure HtmlInput where
  raw : String
  soup : Except String Doc

/-- The equipment lists of a player profile. -/
structure Equipment where
  turrets : List String
  hulls : List String
  paints : List String
  modules : List String
deriving DecidableEq

/-- The player_data record built by parse_player_profile.  The kd field is
the source's kd_ratio; the parsed float is represented by its accepted
source text; rankings is the insertion-ordered dict keyed by category. -/
structure Profile where
  nickname : String
  rank : Option String
  experience : Option Nat
  kills : Option Nat
  deaths : Option Nat
  kd : Option String
  gold_boxes : Option Nat
  premium : Option Bool
  group : Option String
  activity : String
  rankings : List (String × String × String)
  equipment : Equipment
deriving DecidableEq

/-- The initial player_data record (src/scraper.py lines 79-97). -/
def initProfile (nickname : String) : Profile :=
  { nickname := nickname
    rank := none
    experience := none
    kills := none
    deaths := none
    kd := none
    gold_boxes := none
    premium := none
    group := none
    activity := "Unknown"
    rankings := []
    equipment := { turrets := [], hulls := [], paints := [], modules := [] } }

/-- Activity extraction (src/scraper.py lines 99-106): if the user_online
span exists and has a style attribute, a green token in the lowered style
sets Online, else a gray/grey token sets Offline. -/
def activityStep (p : Profile) (d : Doc) : Profile :=
  match d.userOnlineStyle with
  | some (some style) =>
    if pyContains (pyLower style) "green" then { p with activity := "Online" }
    else if pyContains (pyLower style) "gray" || pyContains (pyLower style) "grey" then
      { p with activity := "Offline" }
    else p
  | _ => p

/-- Rank extraction (src/scraper.py lines 108-111): the stripped text of the
matched div, when one matched. -/
def rankStep (p : Profile) (d : Doc) : Profile :=
  match d.rankDivText with
  | some t => { p with rank := some t }
  | none => p

/-- The experience loop (src/scraper.py lines 113-119): first text with a
slash whose numerator, stripped and with spaces removed, is all digits. -/
def expFirst : List String → Option Nat
  | [] => none
  | t :: ts =>
    if pyContains t "/" then
      let cur := String.mk ((pyStripL (t.data.takeWhile (fun c => c != '/'))).filter (fun c => c != ' '))
      if pyIsdigit cur then some (digitsToNat cur.data) else expFirst ts
    else expFirst ts

/-- Experience extraction step. -/
def expStep (p : Profile) (d : Doc) : Profile :=
  match expFirst d.expMatchTexts with
  | some n => { p with experience := some n }
  | none => p

/-- One label/value update of the statistics loop (src/scraper.py lines
130-147): the elif chain on label substrings; numeric fields only set on a
pure digit value; premium set to whether the value contains the
affirmative token; group set to the raw value. -/
def statsUpd (p : Profile) (kv : String × String) : Profile :=
  if pyContains kv.1 "Уничтожил" || pyContains kv.1 "Убийств" then
    if pyIsdigit kv.2 then { p with kills := some (digitsToNat kv.2.data) } else p
  else if pyContains kv.1 "Подбит" || pyContains kv.1 "Смертей" then
    if pyIsdigit kv.2 then { p with deaths := some (digitsToNat kv.2.data) } else p
  else if pyContains kv.1 "У/П" || pyContains kv.1 "K/D" then
    if pyFloatOk kv.2 then { p with kd := some kv.2 } else p
  else if pyContains kv.1 "золотых ящиков" then
    if pyIsdigit kv.2 then { p with gold_boxes := some (digitsToNat kv.2.data) } else p
  else if pyContains kv.1 "Премиум" then { p with premium := some (pyContains kv.2 "Да") }
  else if pyContains kv.1 "Группа" then { p with group := some kv.2 }
  else p

/-- The statistics table loop (src/scraper.py lines 121-147): every table,
every row with at least two cells, label = cell 0 text, value = cell 1
text. -/
def statsStep (p : Profile) (d : Doc) : Profile :=
  d.tables.foldl (fun q t =>
    t.rows.foldl (fun q2 r =>
      match r.cells with
      | k :: v :: _ => statsUpd q2 (k.text, v.text)
      | _ => q2) q) p

/-- The label/value pairs of all two-or-more-cell table rows, accumulated
across all tables in document order. -/
def statPairs (d : Doc) : List (String × String) :=
  (d.tables.flatMap Table.rows).filterMap (fun r =>
    match r.cells with
    | k :: v :: _ => some (k.text, v.text)
    | _ => none)

/-- Dict insertion with Python semantics: an existing key is overwritten in
place, a new key is appended. -/
def dictUpsert (l : List (String × String × String)) (k : String) (v : String × String) :
    List (String × String × String) :=
  if l.any (fun e => e.1 == k) then l.map (fun e => if e.1 == k then (k, v) else e)
  else l ++ [(k, v)]

/-- The rankings loop (src/scraper.py lines 149-163): the first table only;
rows with at least three non-empty stripped cells recorded by category. -/
def rankingsStep (p : Profile) (d : Doc) : Profile :=
  match d.tables.head? with
  | none => p
  | some t =>
    { p with rankings := t.rows.foldl (fun acc r =>
        match r.cells with
        | c0 :: c1 :: c2 :: _ =>
          if !(c0.text == "") && !(c1.text == "") && !(c2.text == "") then
            dictUpsert acc c0.text (c1.text, c2.text)
          else acc
        | _ => acc) p.rankings }

/-- One image of the equipment loop (src/scraper.py lines 168-179):
classified by src substring. -/
def equipUpd (eq : Equipment) (img : String × String) : Equipment :=
  if pyContains img.2 "turrets" then { eq with turrets := eq.turrets ++ [img.1] }
  else if pyContains img.2 "hulls" then { eq with hulls := eq.hulls ++ [img.1] }
  else if pyContains img.2 "colormaps" then { eq with paints := eq.paints ++ [img.1] }
  else if pyContains img.2 "resistances" then { eq with modules := eq.modules ++ [img.1] }
  else eq

/-- The equipment loop (src/scraper.py lines 165-179). -/
def equipStep (p : Profile) (d : Doc) : Profile :=
  { p with equipment := d.equipImgs.foldl equipUpd p.equipment }

/-- The body of parse_player_profile after the existence gate
(src/scraper.py lines 79-181). -/
def profileBody (d : Doc) (nickname : String) : Profile :=
  equipStep (rankingsStep (statsStep (expStep (rankStep (activityStep (initProfile nickname) d) d) d) d) d) d

/-- parse_player_profile (src/scraper.py lines 72-185): soup construction
failure is caught by the top-level except and yields none; then the
existence gate: if neither the marker phrase nor the lowered nickname
occurs in the lowered raw html, return none; otherwise the extraction
body runs. -/
def parse_player_profile (inp : HtmlInput) (nickname : String) : Option Profile :=
  match inp.soup with
  | Except.error _ => none
  | Except.ok d =>
    if !(pyContains (pyLower inp.raw) "профиль игрока") &&
       !(pyContains (pyLower inp.raw) (pyLower nickname)) then none
    else some (profileBody d nickname)

/-- A leaderboard entry as built by parse_leaderboard. -/
structure LeaderboardEntry where
  rank : Int
  name : String
  value : Int
  formatted_value : String
deriving DecidableEq

/-- Name resolution and cleanup for a leaderboard name cell
(src/scraper.py lines 220-235): link text, else stripped image alt, else
the raw cell text; then, when non-empty, strip a leading run of
digits/whitespace, strip, strip a leading run of non-word characters,
strip. -/
def resolvedName (c1 : Cell) : String :=
  let n1 := match c1.link with
    | some t => t
    | none => ""
  let n2 := if n1 == "" then
      (match c1.imgAlt with
       | some a => String.mk (pyStripL a.data)
       | none => "")
    else n1
  let n3 := if n2 == "" then c1.text else n2
  if n3 == "" then n3
  else
    let s1 := pyStripL (n3.data.dropWhile (fun c => c.isDigit || isPySpace c))
    String.mk (pyStripL (s1.dropWhile (fun c => !isWordChar c)))

/-- Value parsing for a leaderboard value text (src/scraper.py lines
238-242): delete every character except digits and whitespace, strip,
delete spaces, then int() with 0 on an empty or unparseable result. -/
def cleanValue (s : String) : Int :=
  let vc := (pyStripL (s.data.filter (fun c => c.isDigit || isPySpace c))).filter (fun c => c != ' ')
  if vc.isEmpty then 0
  else match pyIntVal vc with
       | some z => z
       | none => 0

/-- Row acceptance and entry construction of parse_leaderboard
(src/scraper.py lines 213-249): rows with at least three cells; accepted
when the rank text is all digits, the resolved name is non-empty and the
value text is non-empty. -/
def rowEntry (r : Row) : Option LeaderboardEntry :=
  match r.cells with
  | c0 :: c1 :: c2 :: _ =>
    if pyIsdigit c0.text && !(resolvedName c1 == "") && !(c2.text == "") then
      some { rank := (digitsToNat c0.text.data : Int)
             name := resolvedName c1
             value := cleanValue c2.text
             formatted_value := c2.text }
    else none
  | _ => none

/-- Stable insertion of an entry after all entries of rank at most its own:
the insertion step of a stable sort by rank. -/
def insRank (e : LeaderboardEntry) : List LeaderboardEntry → List LeaderboardEntry
  | [] => [e]
  | x :: xs => if x.rank ≤ e.rank then x :: insRank e xs else e :: x :: xs

/-- Stable sort by the rank key, the behaviour of Python list.sort with
key rank (Timsort is stable; a stable sort by a key is unique, so this
insertion sort computes the same list). -/
def sortByRank (l : List LeaderboardEntry) : List LeaderboardEntry :=
  l.foldl (fun acc e => insRank e acc) []

/-- parse_leaderboard (src/scraper.py lines 204-256): soup failure yields
the empty list; otherwise accepted rows are accumulated across all tables
in document order, sorted ascending by rank, and truncated to ten. -/
def parse_leaderboard (inp : HtmlInput) : List LeaderboardEntry :=
  match inp.soup with
  | Except.error _ => []
  | Except.ok d =>
    let players := d.tables.foldl (fun acc t =>
      t.rows.foldl (fun acc2 r =>
        match rowEntry r with
        | some e => acc2 ++ [e]
        | none => acc2) acc) []
    (sortByRank players).take 10

/-- The accepted rows accumulated across all tables, as a flat map. -/
def collectEntries (d : Doc) : List LeaderboardEntry :=
  d.tables.flatMap (fun t => t.rows.filterMap rowEntry)

/-- The part_000 variant of the value cleanup (src/unnamed/part_000 lines
262-271): the same operations written as two statements and an if/else. -/
def cleanValue2 (s : String) : Int :=
  let vc1 := pyStripL (s.data.filter (fun c => c.isDigit || isPySpace c))
  let vc2 := vc1.filter (fun c => c != ' ')
  if !vc2.isEmpty then
    match pyIntVal vc2 with
    | some z => z
    | none => 0
  else 0

/-- The part_000 variant of row acceptance and entry construction
(src/unnamed/part_000 lines 229-278). -/
def rowEntry2 (r : Row) : Option LeaderboardEntry :=
  match r.cells with
  | c0 :: c1 :: c2 :: _ =>
    if pyIsdigit c0.text && !(resolvedName c1 == "") && !(c2.text == "") then
      some { rank := (digitsToNat c0.text.data : Int)
             name := resolvedName c1
             value := cleanValue2 c2.text
             formatted_value := c2.text }
    else none
  | _ => none

/-- parse_leaderboard as duplicated in src/unnamed/part_000 lines 218-286. -/
def parse_leaderboard2 (inp : HtmlInput) : List LeaderboardEntry :=
  match inp.soup with
  | Except.error _ => []
  | Except.ok d =>
    let players := d.tables.foldl (fun acc t =>
      t.rows.foldl (fun acc2 r =>
        match rowEntry2 r with
        | some e => acc2 ++ [e]
        | none => acc2) acc) []
    (sortByRank players).take 10

/-- A cache entry: the data and timestamp keys of the per-key dict
(src/scraper.py lines 50-54). -/
structure CacheEntry (α : Type) where
  data : α
  timestamp : Int
deriving DecidableEq

/-- The cache dict: one entry per key, insertion-ordered. -/
abbrev Cache (α : Type) : Type := List (String × CacheEntry α)

/-- Dict lookup by key. -/
def cacheLookup {α : Type} (c : Cache α) (k : String) : Option (CacheEntry α) :=
  (List.find? (fun e => e.1 == k) c).map (fun e => e.2)

/-- set_cache (src/scraper.py lines 50-54): unconditionally store the value
under the key with the current time (dict assignment: overwrite in place
or append). -/
def set_cache {α : Type} (c : Cache α) (k : String) (v : α) (now : Int) : Cache α :=
  if c.any (fun e => e.1 == k) then
    c.map (fun e => if e.1 == k then (k, { data := v, timestamp := now }) else e)
  else c ++ [(k, { data := v, timestamp := now })]

/-- is_cache_valid (src/scraper.py lines 39-43): the key is present and its
age is strictly below the 300 second timeout. -/
def is_cache_valid {α : Type} (c : Cache α) (k : String) (now : Int) : Bool :=
  match cacheLookup c k with
  | none => false
  | some e => decide (now - e.timestamp < 300)

/-- get_from_cache (src/scraper.py lines 45-48): the stored data when the
entry is valid, otherwise none; the store is never modified. -/
def get_from_cache {α : Type} (c : Cache α) (k : String) (now : Int) : Option α :=
  if is_cache_valid c k now then (cacheLookup c k).map (fun e => e.data)
  else none

/-- A value the scraper caches: a player profile or a leaderboard. -/
inductive CacheVal : Type
  | profile (p : Profile)
  | board (l : List LeaderboardEntry)
deriving DecidableEq

/-- The mutable state of an RTanksScraper instance that the parse methods
could read or write: its cache (the session and the fixed base url and
headers carry no parse-relevant state). -/
structure ScraperState where
  cache : Cache CacheVal

/-- parse_player_profile as an instance method: the result paired with the
instance state after the call.  The body reads no instance attribute and
assigns none, so the state passes through unchanged and the result is a
function of the arguments alone. -/
def parse_player_profile_m (st : ScraperState) (inp : HtmlInput) (nickname : String) :
    Option Profile × ScraperState :=
  (parse_player_profile inp nickname, st)

/-- parse_leaderboard as an instance method, as above. -/
def parse_leaderboard_m (st : ScraperState) (inp : HtmlInput) :
    List LeaderboardEntry × ScraperState :=
  (parse_leaderboard inp, st)

/-- A two-cell row with the given label and value texts. -/
def kvRow (k v : String) : Row :=
  { cells := [{ text := k, link := none, imgAlt := none },
              { text := v, link := none, imgAlt := none }] }

/-- The document of the C1 test markup: one table whose label/value rows
are exactly those named by the spec's profile test. -/
def c1doc : Doc :=
  { tables := [{ rows := [kvRow "Убил" "42", kvRow "Подбит" "7", kvRow "Премиум" "Да"] }]
    userOnlineStyle := none
    rankDivText := none
    expMatchTexts := []
    equipImgs := [] }

/-- The C1 input: raw markup containing the profile marker phrase. -/
def c1inp : HtmlInput := { raw := "профиль игрока Foo", soup := Except.ok c1doc }

/-- The C1 document with the kill label spelled as the code recognises it. -/
def c1docAmended : Doc :=
  { tables := [{ rows := [kvRow "Убийств" "42", kvRow "Подбит" "7", kvRow "Премиум" "Да"] }]
    userOnlineStyle := none
    rankDivText := none
    expMatchTexts := []
    equipImgs := [] }

/-- The amended C1 input. -/
def c1inpAmended : HtmlInput := { raw := "профиль игрока Foo", soup := Except.ok c1docAmended }

/-- A three-cell leaderboard row from plain texts and a link name. -/
def lbRow (rank link value : String) : Row :=
  { cells := [{ text := rank, link := none, imgAlt := none },
              { text := link, link := some link, imgAlt := none },
              { text := value, link := none, imgAlt := none }] }

/-- The C3 witness document: two tables with out-of-order ranks and a
rejected non-numeric rank row. -/
def c3doc : Doc :=
  { tables := [{ rows := [lbRow "2" "Bob" "500", lbRow "N/A" "Eve" "1"] },
               { rows := [lbRow "1" "Alice" "1 000"] }]
    userOnlineStyle := none
    rankDivText := none
    expMatchTexts := []
    equipImgs := [] }

/-- The C3 witness input. -/
def c3inp : HtmlInput := { raw := "ratings", soup := Except.ok c3doc }

/-- The C4 witness row: a non-numeric rank column. -/
def naRow : Row :=
  { cells := [{ text := "N/A", link := none, imgAlt := none },
              { text := "Bob", link := some "Bob", imgAlt := none },
              { text := "500", link := none, imgAlt := none }] }

/-- The C5 witness row: an accepted row with a thousands-grouped value. -/
def c5row : Row := lbRow "1" "Alice" "1 000"

/-- The C8 witness document: an online indicator with a green style. -/
def c8doc : Doc :=
  { tables := []
    userOnlineStyle := some (some "color: green;")
    rankDivText := none
    expMatchTexts := []
    equipImgs := [] }

/-- The C8 witness input. -/
def c8inp : HtmlInput := { raw := "профиль игрока Bar", soup := Except.ok c8doc }

/-- The C2 witness input: markup holding neither the marker nor the
nickname. -/
def c2inp : HtmlInput :=
  { raw := "<html><body>nothing here</body></html>"
    soup := Except.ok { tables := [{ rows := [kvRow "Подбит" "7"] }]
                        userOnlineStyle := none
                        rankDivText := none
                        expMatchTexts := []
                        equipImgs := [] } }

/-- Membership survives stripping. -/
theorem mem_pyStripL {c : Char} {l : List Char} (h : c ∈ pyStripL l) : c ∈ l := by
  unfold pyStripL at h
  have h1 : c ∈ (l.dropWhile isPySpace).reverse.dropWhile isPySpace := List.mem_reverse.mp h
  have h2 : c ∈ (l.dropWhile isPySpace).reverse := (List.dropWhile_sublist _).subset h1
  exact (List.dropWhile_sublist _).subset (List.mem_reverse.mp h2)

/-- Python int() of a minus-free character list never returns a negative. -/
theorem pyIntVal_nonneg {l : List Char} (h : '-' ∉ l) : 0 ≤ (pyIntVal l).getD 0 := by
  unfold pyIntVal
  cases hm : pyStripL l with
  | nil => simp
  | cons c rest =>
    have hc : c ∈ l := mem_pyStripL (by rw [hm]; exact List.mem_cons_self c rest)
    have hne : (c == '-') = false := by
      refine beq_eq_false_iff_ne.mpr ?_
      rintro rfl
      exact h hc
    by_cases hp : (c == '+') = true <;>
      simp [hne, hp] <;> split <;> simp [Int.natCast_nonneg]

/-- The parsed value of a leaderboard value text is never negative. -/
theorem cleanValue_nonneg (s : String) : 0 ≤ cleanValue s := by
  unfold cleanValue
  dsimp only
  split
  · exact le_refl 0
  · have hmem : '-' ∉ (pyStripL (s.data.filter (fun c => c.isDigit || isPySpace c))).filter (fun c => c != ' ') := by
      intro hin
      have h1 : '-' ∈ pyStripL (s.data.filter (fun c => c.isDigit || isPySpace c)) :=
        (List.mem_filter.mp hin).1
      have h2 : '-' ∈ s.data.filter (fun c => c.isDigit || isPySpace c) := mem_pyStripL h1
      have h3 : ('-'.isDigit || isPySpace '-') = true := (List.mem_filter.mp h2).2
      exact absurd h3 (by decide)
    have := pyIntVal_nonneg hmem
    cases hv : pyIntVal ((pyStripL (s.data.filter (fun c => c.isDigit || isPySpace c))).filter (fun c => c != ' ')) with
    | none => simp
    | some z => rw [hv] at this; simpa using this

/-- Lookup after the in-place overwrite branch of set_cache. -/
theorem cacheLookup_map_set {α : Type} (k : String) (nv : CacheEntry α) :
    ∀ c : Cache α, c.any (fun e => e.1 == k) = true →
      cacheLookup (c.map (fun e => if e.1 == k then (k, nv) else e)) k = some nv := by
  intro c
  induction c with
  | nil => intro h; simp at h
  | cons x xs ih =>
    intro h
    rw [List.any_cons] at h
    rw [List.map_cons]
    by_cases hx : (x.1 == k) = true
    · unfold cacheLookup
      rw [if_pos hx, List.find?_cons_of_pos _ (by simp)]
      simp
    · have hx' : (x.1 == k) = false := by simpa using hx
      have hxs : xs.any (fun e => e.1 == k) = true := by simpa [hx'] using h
      unfold cacheLookup
      rw [if_neg hx, List.find?_cons_of_neg _ (by simpa using hx)]
      exact ih hxs

/-- Lookup after the append branch of set_cache. -/
theorem cacheLookup_append_set {α : Type} (k : String) (nv : CacheEntry α) :
    ∀ c : Cache α, c.any (fun e => e.1 == k) = false →
      cacheLookup (c ++ [(k, nv)]) k = some nv := by
  intro c
  induction c with
  | nil =>
    intro _
    unfold cacheLookup
    rw [List.nil_append, List.find?_cons_of_pos _ (by simp)]
    simp
  | cons x xs ih =>
    intro h
    rw [List.any_cons, Bool.or_eq_false_iff] at h
    rw [List.cons_append]
    unfold cacheLookup
    rw [List.find?_cons_of_neg _ (by simpa using h.1)]
    exact ih h.2

/-- set_cache always stores the value under the key with the given time. -/
theorem cacheLookup_set {α : Type} (c : Cache α) (k : String) (v : α) (t : Int) :
    cacheLookup (set_cache c k v t) k = some { data := v, timestamp := t } := by
  unfold set_cache
  by_cases h : c.any (fun e => e.1 == k) = true
  · rw [if_pos h]
    exact cacheLookup_map_set k _ c h
  · rw [if_neg h]
    exact cacheLookup_append_set k _ c (by simp only [Bool.not_eq_true] at h; exact h)

/-- The append-accumulating row loop of parse_leaderboard equals the
filter-map of the row acceptance over the rows. -/
theorem lbRows_eq (rows : List Row) :
    ∀ acc : List LeaderboardEntry,
      rows.foldl (fun acc2 r =>
        match rowEntry r with
        | some e => acc2 ++ [e]
        | none => acc2) acc
      = acc ++ rows.filterMap rowEntry := by
  induction rows with
  | nil => intro acc; simp
  | cons r rs ih =>
    intro acc
    rw [List.foldl_cons, List.filterMap_cons]
    cases he : rowEntry r with
    | none => simpa [he] using ih acc
    | some e =>
      simp only [he]
      rw [ih (acc ++ [e]), List.append_assoc, List.singleton_append]

/-- The table loop of parse_leaderboard accumulates the accepted rows of
all tables in document order. -/
theorem lbTables_eq (ts : List Table) :
    ∀ acc : List LeaderboardEntry,
      ts.foldl (fun acc t =>
        t.rows.foldl (fun acc2 r =>
          match rowEntry r with
          | some e => acc2 ++ [e]
          | none => acc2) acc) acc
      = acc ++ ts.flatMap (fun t => t.rows.filterMap rowEntry) := by
  induction ts with
  | nil => intro acc; simp
  | cons t ts ih =>
    intro acc
    rw [List.foldl_cons, lbRows_eq, ih, List.flatMap_cons, List.append_assoc]

/-- Membership in a stable insertion. -/
theorem mem_insRank {a e : LeaderboardEntry} :
    ∀ {l : List LeaderboardEntry}, a ∈ insRank e l → a = e ∨ a ∈ l := by
  intro l
  induction l with
  | nil =>
    intro h
    simp [insRank] at h
    exact Or.inl h
  | cons x xs ih =>
    intro h
    unfold insRank at h
    split at h
    · rcases List.mem_cons.mp h with rfl | h'
      · exact Or.inr (List.mem_cons_self _ _)
      · rcases ih h' with rfl | h2
        · exact Or.inl rfl
        · exact Or.inr (List.mem_cons_of_mem _ h2)
    · rcases List.mem_cons.mp h with rfl | h'
      · exact Or.inl rfl
      · exact Or.inr h'

/-- Stable insertion preserves sortedness by rank. -/
theorem pairwise_insRank {e : LeaderboardEntry} :
    ∀ {l : List LeaderboardEntry},
      l.Pairwise (fun a b => a.rank ≤ b.rank) →
      (insRank e l).Pairwise (fun a b => a.rank ≤ b.rank) := by
  intro l
  induction l with
  | nil => intro _; simp [insRank]
  | cons x xs ih =>
    intro h
    rw [List.pairwise_cons] at h
    obtain ⟨hx, hxs⟩ := h
    unfold insRank
    split
    next hle =>
      rw [List.pairwise_cons]
      refine ⟨?_, ih hxs⟩
      intro a ha
      rcases mem_insRank ha with rfl | ha'
      · exact hle
      · exact hx a ha'
    next hgt =>
      rw [List.pairwise_cons]
      refine ⟨?_, List.pairwise_cons.mpr ⟨hx, hxs⟩⟩
      intro a ha
      rcases List.mem_cons.mp ha with rfl | ha'
      · exact le_of_not_le hgt
      · exact le_trans (le_of_not_le hgt) (hx a ha')

/-- The stable sort by rank is sorted by rank. -/
theorem sorted_sortByRank (l : List LeaderboardEntry) :
    (sortByRank l).Pairwise (fun a b => a.rank ≤ b.rank) := by
  unfold sortByRank
  have haux : ∀ (l2 acc : List LeaderboardEntry),
      acc.Pairwise (fun a b => a.rank ≤ b.rank) →
      (l2.foldl (fun acc e => insRank e acc) acc).Pairwise (fun a b => a.rank ≤ b.rank) := by
    intro l2
    induction l2 with
    | nil => intro acc h; exact h
    | cons e es ih => intro acc h; exact ih _ (pairwise_insRank h)
  exact haux l [] List.Pairwise.nil

/-- The statistics row loop over a list of rows equals the fold of the
update over the rows' label/value pairs. -/
theorem statsRows_eq (rows : List Row) :
    ∀ q : Profile,
      rows.foldl (fun q2 r =>
        match r.cells with
        | k :: v :: _ => statsUpd q2 (k.text, v.text)
        | _ => q2) q
      = (rows.filterMap (fun r =>
          match r.cells with
          | k :: v :: _ => some (k.text, v.text)
          | _ => none)).foldl statsUpd q := by
  induction rows with
  | nil => intro q; rfl
  | cons r rs ih =>
    intro q
    rw [List.foldl_cons, List.filterMap_cons]
    obtain ⟨cs⟩ := r
    rcases cs with _ | ⟨k, _ | ⟨v, rest⟩⟩
    · exact ih q
    · exact ih q
    · rw [List.foldl_cons]
      exact ih _

/-- The statistics loop over all tables equals the fold of the update over
the accumulated label/value pairs. -/
theorem statsStep_eq (d : Doc) (p : Profile) :
    statsStep p d = (statPairs d).foldl statsUpd p := by
  unfold statsStep statPairs
  obtain ⟨ts, uo, rd, em, ei⟩ := d
  dsimp only
  induction ts generalizing p with
  | nil => rfl
  | cons t ts ih =>
    rw [List.foldl_cons, List.flatMap_cons, List.filterMap_append, List.foldl_append]
    rw [statsRows_eq]
    exact ih _

/-- A fold preserves any projection each step preserves. -/
theorem foldl_proj {β γ : Type} (proj : Profile → γ) (f : Profile → β → Profile)
    (hf : ∀ p b, proj (f p b) = proj p) :
    ∀ (l : List β) (p : Profile), proj (l.foldl f p) = proj p := by
  intro l
  induction l with
  | nil => intro p; rfl
  | cons b bs ih => intro p; rw [List.foldl_cons, ih, hf]

/-- The statistics update never touches the activity field. -/
theorem statsUpd_activity (p : Profile) (kv : String × String) :
    (statsUpd p kv).activity = p.activity := by
  unfold statsUpd
  repeat' split
  all_goals rfl

/-- The statistics loop never touches the activity field. -/
theorem statsStep_activity (p : Profile) (d : Doc) :
    (statsStep p d).activity = p.activity := by
  unfold statsStep
  refine foldl_proj _ _ ?_ d.tables p
  intro q t
  refine foldl_proj _ _ ?_ t.rows q
  intro q2 r
  obtain ⟨cs⟩ := r
  rcases cs with _ | ⟨k, _ | ⟨v, rest⟩⟩
  · rfl
  · rfl
  · exact statsUpd_activity q2 (k.text, v.text)

/-- The rank step never touches the activity field. -/
theorem rankStep_activity (p : Profile) (d : Doc) :
    (rankStep p d).activity = p.activity := by
  unfold rankStep
  split <;> rfl

/-- The experience step never touches the activity field. -/
theorem expStep_activity (p : Profile) (d : Doc) :
    (expStep p d).activity = p.activity := by
  unfold expStep
  split <;> rfl

/-- The rankings step never touches the activity field. -/
theorem rankingsStep_activity (p : Profile) (d : Doc) :
    (rankingsStep p d).activity = p.activity := by
  unfold rankingsStep
  split <;> rfl

/-- The equipment step never touches the activity field. -/
theorem equipStep_activity (p : Profile) (d : Doc) :
    (equipStep p d).activity = p.activity := rfl

/-- The rankings step never touches the kills, deaths or premium fields. -/
theorem rankingsStep_stats (p : Profile) (d : Doc) :
    (rankingsStep p d).kills = p.kills ∧ (rankingsStep p d).deaths = p.deaths ∧
      (rankingsStep p d).premium = p.premium := by
  unfold rankingsStep
  split <;> exact ⟨rfl, rfl, rfl⟩

/-- The equipment step never touches the kills, deaths or premium fields. -/
theorem equipStep_stats (p : Profile) (d : Doc) :
    (equipStep p d).kills = p.kills ∧ (equipStep p d).deaths = p.deaths ∧
      (equipStep p d).premium = p.premium := ⟨rfl, rfl, rfl⟩

/-- Claim C1 (counterexample): on markup that passes the existence gate and
whose table rows are exactly the label/value pairs (Убил, 42),
(Подбит, 7), (Премиум, Да), parse_player_profile returns a profile whose
kills field is absent, not 42: the label Убил contains neither of the
kill-label substrings the code matches (Уничтожил, Убийств), so the claim
as stated is false. -/
theorem c1_label_counterexample :
    pyContains (pyLower c1inp.raw) "профиль игрока" = true ∧
    statPairs c1doc = [("Убил", "42"), ("Подбит", "7"), ("Премиум", "Да")] ∧
    (parse_player_profile c1inp "Foo").map Profile.kills = some none ∧
    (parse_player_profile c1inp "Foo").map Profile.kills ≠ some (some 42) :=
  ⟨by decide, by decide, by decide, by decide⟩

/-- Claim C1 (amended): for any input whose markup passes the existence
gate and whose accumulated label/value table rows are exactly
(Убийств, 42), (Подбит, 7), (Премиум, Да), parse_player_profile returns a
record with kills 42, deaths 7 and premium true. -/
theorem c1_profile_stats (inp : HtmlInput) (d : Doc) (nick : String)
    (hs : inp.soup = Except.ok d)
    (hg : pyContains (pyLower inp.raw) "профиль игрока" = true ∨
          pyContains (pyLower inp.raw) (pyLower nick) = true)
    (hp : statPairs d = [("Убийств", "42"), ("Подбит", "7"), ("Премиум", "Да")]) :
    ∃ p, parse_player_profile inp nick = some p ∧
      p.kills = some 42 ∧ p.deaths = some 7 ∧ p.premium = some true := by
  obtain ⟨raw, soup⟩ := inp
  obtain rfl : soup = Except.ok d := hs
  have hg2 : pyContains (pyLower raw) "профиль игрока" = true ∨
      pyContains (pyLower raw) (pyLower nick) = true := hg
  have hcond : (!(pyContains (pyLower raw) "профиль игрока") &&
      !(pyContains (pyLower raw) (pyLower nick))) = false := by
    rcases hg2 with h | h <;> simp [h]
  refine ⟨profileBody d nick, ?_, ?_, ?_, ?_⟩
  · simp [parse_player_profile, hcond]
  · unfold profileBody
    rw [(equipStep_stats _ _).1, (rankingsStep_stats _ _).1, statsStep_eq, hp]
    rfl
  · unfold profileBody
    rw [(equipStep_stats _ _).2.1, (rankingsStep_stats _ _).2.1, statsStep_eq, hp]
    rfl
  · unfold profileBody
    rw [(equipStep_stats _ _).2.2, (rankingsStep_stats _ _).2.2, statsStep_eq, hp]
    rfl

/-- Claim C1 witness: the amended theorem applied at the concrete test
markup. -/
theorem c1_profile_stats_witness :
    ∃ p, parse_player_profile c1inpAmended "Foo" = some p ∧
      p.kills = some 42 ∧ p.deaths = some 7 ∧ p.premium = some true :=
  c1_profile_stats c1inpAmended c1docAmended "Foo" rfl (Or.inl (by decide)) (by decide)

/-- Claim C2: when neither the marker phrase nor the lowered nickname
occurs in the lowered raw markup, parse_player_profile returns none
whatever the document holds. -/
theorem c2_existence_gate (inp : HtmlInput) (nick : String)
    (h1 : pyContains (pyLower inp.raw) "профиль игрока" = false)
    (h2 : pyContains (pyLower inp.raw) (pyLower nick) = false) :
    parse_player_profile inp nick = none := by
  obtain ⟨raw, soup⟩ := inp
  dsimp only at h1 h2
  cases soup with
  | error msg => rfl
  | ok d =>
    unfold parse_player_profile
    dsimp only
    rw [h1, h2]
    rfl

/-- Claim C2 witness: the gate theorem applied to markup lacking both
tokens but holding a statistics table. -/
theorem c2_existence_gate_witness : parse_player_profile c2inp "Ghost" = none :=
  c2_existence_gate c2inp "Ghost" (by decide) (by decide)

/-- Claim C3: every parse_leaderboard result is sorted ascending by rank
and at most ten long, and on any constructed document it is exactly the
first ten, after the stable sort by rank, of the accepted rows
accumulated across all tables. -/
theorem c3_sorted_top10 (inp : HtmlInput) :
    (parse_leaderboard inp).Pairwise (fun a b => a.rank ≤ b.rank) ∧
    (parse_leaderboard inp).length ≤ 10 ∧
    ∀ d, inp.soup = Except.ok d →
      parse_leaderboard inp = (sortByRank (collectEntries d)).take 10 := by
  obtain ⟨raw, soup⟩ := inp
  cases soup with
  | error msg =>
    refine ⟨List.Pairwise.nil, by simp [parse_leaderboard], ?_⟩
    intro d hd
    exact Except.noConfusion hd
  | ok d =>
    have hbody : parse_leaderboard ⟨raw, Except.ok d⟩ = (sortByRank (collectEntries d)).take 10 := by
      unfold parse_leaderboard collectEntries
      dsimp only
      rw [lbTables_eq, List.nil_append]
    refine ⟨?_, ?_, ?_⟩
    · rw [hbody]
      exact List.Pairwise.sublist (List.take_sublist _ _) (sorted_sortByRank _)
    · rw [hbody]
      exact List.length_take_le _ _
    · intro d2 hd2
      obtain rfl : d = d2 := by injection hd2
      exact hbody

/-- Claim C3 witness: the theorem applied at a two-table document with
out-of-order ranks and a rejected non-numeric row, with the resulting
list evaluated. -/
theorem c3_sorted_top10_witness :
    (parse_leaderboard c3inp).Pairwise (fun a b => a.rank ≤ b.rank) ∧
    parse_leaderboard c3inp = (sortByRank (collectEntries c3doc)).take 10 ∧
    parse_leaderboard c3inp = [
      { rank := 1, name := "Alice", value := 1000, formatted_value := "1 000" },
      { rank := 2, name := "Bob", value := 500, formatted_value := "500" }] :=
  ⟨(c3_sorted_top10 c3inp).1, (c3_sorted_top10 c3inp).2.2 c3doc rfl, by decide⟩

/-- The row acceptance evaluated on a row of at least three cells. -/
theorem rowEntry_cons (c0 c1 c2 : Cell) (rest : List Cell) :
    rowEntry { cells := c0 :: c1 :: c2 :: rest } =
      if pyIsdigit c0.text && !(resolvedName c1 == "") && !(c2.text == "") then
        some { rank := (digitsToNat c0.text.data : Int)
               name := resolvedName c1
               value := cleanValue c2.text
               formatted_value := c2.text }
      else none := rfl

/-- Claim C4: a row with at least three cells yields an entry exactly when
the first cell's text is a non-empty digit string, the resolved name is
non-empty and the third cell's text is non-empty. -/
theorem c4_row_acceptance (r : Row) (c0 c1 c2 : Cell) (rest : List Cell)
    (h : r.cells = c0 :: c1 :: c2 :: rest) :
    (rowEntry r).isSome = true ↔
      (pyIsdigit c0.text = true ∧ resolvedName c1 ≠ "" ∧ c2.text ≠ "") := by
  obtain ⟨cs⟩ := r
  obtain rfl : cs = c0 :: c1 :: c2 :: rest := h
  rw [rowEntry_cons]
  split
  next hc =>
    simp only [Option.isSome_some, true_iff]
    simp only [Bool.and_eq_true, Bool.not_eq_true', beq_eq_false_iff_ne, ne_eq] at hc
    exact ⟨hc.1.1, hc.1.2, hc.2⟩
  next hc =>
    simp only [Option.isSome_none, Bool.false_eq_true, false_iff]
    intro hcon
    apply hc
    simp only [Bool.and_eq_true, Bool.not_eq_true', beq_eq_false_iff_ne, ne_eq]
    exact ⟨⟨hcon.1, hcon.2.1⟩, hcon.2.2⟩

/-- Claim C4 witness: the acceptance criterion applied at a row whose rank
column is the non-numeric text, which is therefore dropped. -/
theorem c4_row_acceptance_witness :
    ((rowEntry naRow).isSome = true ↔
      (pyIsdigit "N/A" = true ∧ resolvedName { text := "Bob", link := some "Bob", imgAlt := none } ≠ "" ∧ "500" ≠ "")) ∧
    rowEntry naRow = none :=
  ⟨c4_row_acceptance naRow _ _ _ [] rfl, by decide⟩

/-- Claim C5: every accepted row's value field is the cleaned integer of
the third cell's text, is never negative, and its formatted value is that
text unchanged. -/
theorem c5_value_parsing (r : Row) (c0 c1 c2 : Cell) (rest : List Cell)
    (h : r.cells = c0 :: c1 :: c2 :: rest)
    (e : LeaderboardEntry) (he : rowEntry r = some e) :
    e.value = cleanValue c2.text ∧ 0 ≤ e.value ∧ e.formatted_value = c2.text := by
  obtain ⟨cs⟩ := r
  obtain rfl : cs = c0 :: c1 :: c2 :: rest := h
  rw [rowEntry_cons] at he
  split at he
  · obtain rfl : _ = e := Option.some.inj he
    exact ⟨rfl, cleanValue_nonneg _, rfl⟩
  · exact Option.noConfusion he

/-- Claim C5 witness: the value theorem applied at an accepted row with a
thousands-grouped value text. -/
theorem c5_value_parsing_witness :
    ∃ e, rowEntry c5row = some e ∧
      (e.value = cleanValue "1 000" ∧ 0 ≤ e.value ∧ e.formatted_value = "1 000") ∧
      e.value = 1000 := by
  refine ⟨{ rank := 1, name := "Alice", value := 1000, formatted_value := "1 000" }, by decide, ?_, by decide⟩
  exact c5_value_parsing c5row _ _ _ [] rfl _ (by decide)

/-- Claim C6: after set_cache, get_from_cache returns the value while the
elapsed time is under 300 seconds and none once 300 seconds or more have
elapsed, yet the entry itself is still stored with the write timestamp;
set_cache overwrites unconditionally (no hypothesis on the prior cache),
and get_from_cache reads without modifying the store. -/
theorem c6_cache_ttl {α : Type} (c : Cache α) (k : String) (v : α) (t tq : Int) :
    (tq - t < 300 → get_from_cache (set_cache c k v t) k tq = some v) ∧
    (300 ≤ tq - t → get_from_cache (set_cache c k v t) k tq = none) ∧
    cacheLookup (set_cache c k v t) k = some { data := v, timestamp := t } := by
  refine ⟨?_, ?_, cacheLookup_set c k v t⟩
  · intro hlt
    unfold get_from_cache is_cache_valid
    rw [cacheLookup_set]
    simp [hlt]
  · intro hge
    unfold get_from_cache is_cache_valid
    rw [cacheLookup_set]
    simp [not_lt.mpr hge]

/-- Claim C6 witness: the cache theorem applied on an empty cache at ages
100 and 400 seconds. -/
theorem c6_cache_ttl_witness :
    get_from_cache (set_cache ([] : Cache Nat) "player_Foo" 7 0) "player_Foo" 100 = some 7 ∧
    get_from_cache (set_cache ([] : Cache Nat) "player_Foo" 7 0) "player_Foo" 400 = none ∧
    cacheLookup (set_cache ([] : Cache Nat) "player_Foo" 7 0) "player_Foo" = some { data := 7, timestamp := 0 } :=
  ⟨(c6_cache_ttl [] "player_Foo" 7 0 100).1 (by decide),
   (c6_cache_ttl [] "player_Foo" 7 0 400).2.1 (by decide),
   (c6_cache_ttl [] "player_Foo" 7 0 0).2.2⟩

/-- Claim C7: both extractors are total functions of their input, and on
the input where soup construction fails (the modelled exception path,
caught by the top-level handler of each extractor) parse_player_profile
collapses to none and parse_leaderboard to the empty list, never to a
propagated error. -/
theorem c7_error_collapse (msg raw nick : String) :
    parse_player_profile { raw := raw, soup := Except.error msg } nick = none ∧
    parse_leaderboard { raw := raw, soup := Except.error msg } = [] :=
  ⟨rfl, rfl⟩

/-- Claim C8: the activity of every returned profile is Online when the
online-indicator style holds a green token, Offline when it holds a
gray or grey token and no green one, and Unknown otherwise, including
when the indicator or its style attribute is absent. -/
theorem c8_activity_status (raw : String) (d : Doc) (nick : String) (p : Profile)
    (h : parse_player_profile { raw := raw, soup := Except.ok d } nick = some p) :
    p.activity = match d.userOnlineStyle with
      | some (some style) =>
        if pyContains (pyLower style) "green" then "Online"
        else if pyContains (pyLower style) "gray" || pyContains (pyLower style) "grey" then "Offline"
        else "Unknown"
      | _ => "Unknown" := by
  unfold parse_player_profile at h
  dsimp only at h
  split at h
  · exact Option.noConfusion h
  · obtain rfl : profileBody d nick = p := Option.some.inj h
    unfold profileBody
    rw [equipStep_activity, rankingsStep_activity, statsStep_activity,
        expStep_activity, rankStep_activity]
    unfold activityStep
    cases d.userOnlineStyle with
    | none => rfl
    | some o =>
      cases o with
      | none => rfl
      | some style =>
        dsimp only
        split
        · rfl
        · split <;> rfl

/-- Claim C8 witness: the activity theorem applied at a document whose
indicator style is green, with the resulting activity evaluated. -/
theorem c8_activity_status_witness :
    (parse_player_profile c8inp "Bar").map Profile.activity = some "Online" := by
  cases hp : parse_player_profile c8inp "Bar" with
  | none => exact absurd hp (by decide)
  | some p =>
    have h := c8_activity_status c8inp.raw c8doc "Bar" p hp
    have h2 : p.activity = "Online" := by rw [h]; rfl
    rw [Option.map_some', h2]

/-- Claim C9: the two parse methods are pure: their result does not depend
on the instance state, the state passes through every call unchanged, and
a repeated call on identical input yields an identical result. -/
theorem c9_parse_pure (s1 s2 : ScraperState) (inp : HtmlInput) (nick : String) :
    (parse_player_profile_m s1 inp nick).1 = (parse_player_profile_m s2 inp nick).1 ∧
    (parse_player_profile_m s1 inp nick).2 = s1 ∧
    (parse_leaderboard_m s1 inp).1 = (parse_leaderboard_m s2 inp).1 ∧
    (parse_leaderboard_m s1 inp).2 = s1 ∧
    (parse_player_profile_m (parse_player_profile_m s1 inp nick).2 inp nick).1
      = (parse_player_profile_m s1 inp nick).1 ∧
    (parse_leaderboard_m (parse_leaderboard_m s1 inp).2 inp).1
      = (parse_leaderboard_m s1 inp).1 :=
  ⟨rfl, rfl, rfl, rfl, rfl, rfl⟩

/-- Claim C10: the leaderboard parser of src/scraper.py and its duplicate
in src/unnamed/part_000 compute the same function. -/
theorem c10_duplicates_agree (inp : HtmlInput) :
    parse_leaderboard inp = parse_leaderboard2 inp := by
  have hcv : ∀ s, cleanValue s = cleanValue2 s := by
    intro s
    unfold cleanValue cleanValue2
    dsimp only
    cases h : ((pyStripL (s.data.filter (fun c => c.isDigit || isPySpace c))).filter (fun c => c != ' ')).isEmpty <;>
      simp [h]
  have hre : ∀ r, rowEntry r = rowEntry2 r := by
    intro r
    obtain ⟨cs⟩ := r
    unfold rowEntry rowEntry2
    rcases cs with _ | ⟨a, _ | ⟨b, _ | ⟨c, rest⟩⟩⟩ <;> simp [hcv]
  obtain ⟨raw, soup⟩ := inp
  cases soup with
  | error msg => rfl
  | ok d =>
    unfold parse_leaderboard parse_leaderboard2
    dsimp only
    simp only [hre]
